import Mathlib

/-!
Verification of the classification and aggregation core of the UIDAI
district-equity dashboard (`uidai_dashboard/app.py`).

The embedding below follows the source functions `get_badge`,
`get_issue_type`, `get_risk_category`, `get_recommendation` and
`get_state_suggestions` line by line.  Scores are modelled as rationals
(the source compares Python floats against short decimal thresholds; every
comparison appearing in the claims is exact in both representations).
pandas behaviour is modelled explicitly: `Series.mean` over an empty
column yields NaN (here `none`), a NaN comparison is false, and
`Series.idxmax` / `Series.idxmin` raise on an empty series and otherwise
return the first index attaining the extremum.
-/

unseal Rat.ofScientific Rat.add Rat.mul Rat.inv Rat.sub

namespace UidaiDashboard

/-- One entry of the `METRIC_INFO` table.  The presentation-only
`tooltip` text is elided; the fields used by the core logic are kept. -/
structure MetricInfo where
  name : String
  short : String
  higher_is_better : Bool
deriving DecidableEq, Repr

/-- The four keys of the `METRIC_INFO` dictionary. -/
inductive MetricKey
  | DEI
  | AHS
  | UBS
  | SRS
deriving DecidableEq, Repr

/-- The `METRIC_INFO` dictionary from `app.py` (tooltips elided). -/
def METRIC_INFO : MetricKey → MetricInfo
  | .DEI => ⟨"Digital Equity Index", "DEI", true⟩
  | .AHS => ⟨"Access Health Score", "Access", true⟩
  | .UBS => ⟨"Update Load Score", "Update Load", false⟩
  | .SRS => ⟨"Stability Score", "Stability", false⟩

/-- One row of the district-equity table: a state name, a district name
and the four scores. -/
structure DistrictRecord where
  state : String
  district : String
  DEI : ℚ
  AHS : ℚ
  UBS : ℚ
  SRS : ℚ
deriving DecidableEq, Repr

/-- `get_badge(score, metric_key)` from `app.py`: badge text, color and
icon, thresholded according to the metric's directionality. -/
def get_badge (score : ℚ) (metric_key : MetricKey) : String × String × String :=
  let higher_is_better := (METRIC_INFO metric_key).higher_is_better
  if higher_is_better then
    if score ≥ 0.75 then ("Excellent", "#22c55e", "🟢")
    else if score ≥ 0.5 then ("Good", "#84cc16", "🟡")
    else if score ≥ 0.3 then ("Needs Attention", "#f59e0b", "🟠")
    else ("Critical", "#ef4444", "🔴")
  else
    if score ≤ 0.25 then ("Excellent", "#22c55e", "🟢")
    else if score ≤ 0.5 then ("Good", "#84cc16", "🟡")
    else if score ≤ 0.7 then ("Needs Attention", "#f59e0b", "🟠")
    else ("Critical", "#ef4444", "🔴")

/-- Rank of a badge label, used to state monotonicity of `get_badge`:
Critical is 0, Needs Attention is 1, Good is 2, Excellent is 3. -/
def badgeRank (label : String) : ℕ :=
  if label = "Excellent" then 3
  else if label = "Good" then 2
  else if label = "Needs Attention" then 1
  else 0

/-- `get_issue_type(row)` from `app.py`: the primary issue tag of a
district, DEI checked first, first match wins. -/
def get_issue_type (row : DistrictRecord) : String :=
  if row.DEI < 0.5 then "critical"
  else if row.AHS < 0.5 then "access_stress"
  else if row.UBS > 0.7 then "update_burden"
  else if row.SRS > 0.6 then "stability_risk"
  else "healthy"

/-- `get_risk_category(row)` from `app.py`: risk classification without
the DEI pre-check, first match wins. -/
def get_risk_category (row : DistrictRecord) : String :=
  if row.AHS < 0.5 then "Access Stress"
  else if row.UBS > 0.7 then "Update Burden"
  else if row.SRS > 0.6 then "Stability Risk"
  else "Healthy"

/-- The level/title/message/action record returned by
`get_recommendation`. -/
structure Recommendation where
  level : String
  title : String
  message : String
  action : String
deriving DecidableEq, Repr

/-- `get_recommendation(row)` from `app.py`: action recommendation, same
priority order as `get_issue_type`. -/
def get_recommendation (row : DistrictRecord) : Recommendation :=
  if row.DEI < 0.5 then
    ⟨"critical", "Critical Equity Gap",
      "This district requires immediate attention. DEI score is critically low.",
      "Prioritize comprehensive resource allocation and infrastructure development."⟩
  else if row.AHS < 0.5 then
    ⟨"warning", "High Access Stress",
      "District faces challenges in Aadhaar enrollment accessibility.",
      "Focus on enrollment infrastructure - add more centers, improve connectivity."⟩
  else if row.UBS > 0.7 then
    ⟨"warning", "Update Overload",
      "High volume of update requests straining system capacity.",
      "Streamline update processes - consider mobile camps, optimize workflows."⟩
  else if row.SRS > 0.6 then
    ⟨"warning", "Stability Concerns",
      "Inconsistent service delivery detected.",
      "Review system uptime, data quality, and operational consistency."⟩
  else
    ⟨"good", "District Performing Well",
      "All metrics are within acceptable ranges.",
      "Maintain current operations and continue monitoring."⟩

/-- pandas `Series.mean`: NaN (modelled as `none`) on an empty column,
otherwise the arithmetic mean. -/
def seriesMean (xs : List ℚ) : Option ℚ :=
  if xs = [] then none else some (xs.sum / xs.length)

/-- A Python comparison `x >= c` where `x` may be NaN (modelled as
`none`): any comparison against NaN is false. -/
def nanGe (x : Option ℚ) (c : ℚ) : Bool :=
  match x with
  | none => false
  | some v => v ≥ c

/-- pandas `state_df.loc[state_df['DEI'].idxmax()]`: the first row
attaining the maximal DEI; `idxmax` raises on an empty series, modelled
as `none`. -/
def idxmaxDEI : List DistrictRecord → Option DistrictRecord
  | [] => none
  | r :: rs =>
    some (match idxmaxDEI rs with
      | none => r
      | some m => if r.DEI < m.DEI then m else r)

/-- pandas `state_df.loc[state_df['DEI'].idxmin()]`: the first row
attaining the minimal DEI; `idxmin` raises on an empty series, modelled
as `none`. -/
def idxminDEI : List DistrictRecord → Option DistrictRecord
  | [] => none
  | r :: rs =>
    some (match idxminDEI rs with
      | none => r
      | some m => if m.DEI < r.DEI then m else r)

/-- One line appended by `get_state_suggestions`.  The fixed message
text of each f-string is abstracted into a constructor carrying the
values it interpolates (`district.title()` case-styling and the `.3f`
display rounding of the DEI value are presentation and are not
modelled; the raw district name and exact DEI are carried). -/
inductive Suggestion
  | lowDei (count : ℕ)
  | accessStress (count : ℕ)
  | updateBurden (count : ℕ)
  | stabilityRisk (count : ℕ)
  | excellent
  | moderate
  | belowPar
  | bestPerformer (district : String) (dei : ℚ)
  | needsMostAttention (district : String) (dei : ℚ)
deriving DecidableEq, Repr

/-- The one failure mode of the aggregation layer: `idxmax`/`idxmin`
raise `ValueError` when the group of records is empty. -/
inductive AggError
  | emptyGroup
deriving DecidableEq, Repr

instance {ε α : Type} [DecidableEq ε] [DecidableEq α] : DecidableEq (Except ε α) := fun a b =>
  match a, b with
  | .error e, .error f =>
    if h : e = f then .isTrue (congrArg Except.error h)
    else .isFalse (fun hh => h (Except.error.inj hh))
  | .ok x, .ok y =>
    if h : x = y then .isTrue (congrArg Except.ok h)
    else .isFalse (fun hh => h (Except.ok.inj hh))
  | .error _, .ok _ => .isFalse (fun hh => Except.noConfusion hh)
  | .ok _, .error _ => .isFalse (fun hh => Except.noConfusion hh)

/-- `get_state_suggestions(state_df)` from `app.py`: state-level
suggestion lines.  The count lines are appended only when the count is
positive, then exactly one overall-performance line chosen from the mean
DEI, then the best and worst performers by DEI.  On an empty group the
`idxmax` call raises, modelled as `Except.error .emptyGroup`. -/
def get_state_suggestions (state_df : List DistrictRecord) :
    Except AggError (List Suggestion) :=
  let avg_dei := seriesMean (state_df.map (·.DEI))
  let low_dei := (state_df.filter (fun r => decide (r.DEI < 0.5))).length
  let access_stress := (state_df.filter (fun r => decide (r.AHS < 0.5))).length
  let update_burden := (state_df.filter (fun r => decide (r.UBS > 0.7))).length
  let stability_risk := (state_df.filter (fun r => decide (r.SRS > 0.6))).length
  let s1 := if low_dei > 0 then [Suggestion.lowDei low_dei] else []
  let s2 := if access_stress > 0 then [Suggestion.accessStress access_stress] else []
  let s3 := if update_burden > 0 then [Suggestion.updateBurden update_burden] else []
  let s4 := if stability_risk > 0 then [Suggestion.stabilityRisk stability_risk] else []
  let perf := if nanGe avg_dei 0.7 then Suggestion.excellent
    else if nanGe avg_dei 0.5 then Suggestion.moderate
    else Suggestion.belowPar
  match idxmaxDEI state_df, idxminDEI state_df with
  | some best, some worst =>
    .ok (s1 ++ s2 ++ s3 ++ s4 ++ [perf] ++
      [Suggestion.bestPerformer best.district best.DEI,
       Suggestion.needsMostAttention worst.district worst.DEI])
  | _, _ => .error .emptyGroup

/-- C1: Aggregation over the empty group of district records fails loudly:
`get_state_suggestions` on the empty sequence returns the EmptyGroup error
(in the source, the `idxmax` call raises `ValueError` on the empty DEI
series), and never returns an ordinary suggestion list through which a
NaN mean could silently propagate downstream. -/
theorem get_state_suggestions_empty_group_fails :
    get_state_suggestions [] = .error .emptyGroup := rfl

/-- C2: On the record `{state := X, district := P, DEI := 0.45, AHS := 0.6,
UBS := 0.3, SRS := 0.2}`, `get_issue_type` returns critical and
`get_recommendation` returns level critical (DEI below 0.5), while
`get_risk_category`, which has no DEI check, independently returns
Healthy: the two rule tables give different answers on this input. -/
theorem end_to_end_rule_tables_distinct :
    get_issue_type ⟨"X", "P", 0.45, 0.6, 0.3, 0.2⟩ = "critical" ∧
    (get_recommendation ⟨"X", "P", 0.45, 0.6, 0.3, 0.2⟩).level = "critical" ∧
    get_risk_category ⟨"X", "P", 0.45, 0.6, 0.3, 0.2⟩ = "Healthy" :=
  ⟨by decide, by decide, by decide⟩

/-- C3: The badge label of `get_badge` matches the threshold table
exactly.  For a higher-is-better metric: Excellent iff the score is at
least 0.75, Good iff it is in [0.5, 0.75), Needs Attention iff it is in
[0.3, 0.5), Critical iff it is below 0.3.  For a lower-is-better metric:
Excellent iff the score is at most 0.25, Good iff it is in (0.25, 0.5],
Needs Attention iff it is in (0.5, 0.7], Critical iff it is above 0.7.
In particular the boundaries are inclusive exactly as stated:
`get_badge 0.75` on a higher-is-better metric is Excellent,
`get_badge 0.749999` is Good, and `get_badge 0.7` on a lower-is-better
metric is Needs Attention while `get_badge 0.70001` is Critical. -/
theorem get_badge_threshold_table (key : MetricKey) (score : ℚ) :
    ((METRIC_INFO key).higher_is_better = true →
      (((get_badge score key).1 = "Excellent") ↔ 0.75 ≤ score) ∧
      (((get_badge score key).1 = "Good") ↔ 0.5 ≤ score ∧ score < 0.75) ∧
      (((get_badge score key).1 = "Needs Attention") ↔ 0.3 ≤ score ∧ score < 0.5) ∧
      (((get_badge score key).1 = "Critical") ↔ score < 0.3)) ∧
    ((METRIC_INFO key).higher_is_better = false →
      (((get_badge score key).1 = "Excellent") ↔ score ≤ 0.25) ∧
      (((get_badge score key).1 = "Good") ↔ 0.25 < score ∧ score ≤ 0.5) ∧
      (((get_badge score key).1 = "Needs Attention") ↔ 0.5 < score ∧ score ≤ 0.7) ∧
      (((get_badge score key).1 = "Critical") ↔ 0.7 < score)) ∧
    (get_badge 0.75 .DEI).1 = "Excellent" ∧
    (get_badge 0.749999 .DEI).1 = "Good" ∧
    (get_badge 0.7 .UBS).1 = "Needs Attention" ∧
    (get_badge 0.70001 .UBS).1 = "Critical" := by
  refine ⟨?_, ?_, by decide, by decide, by decide, by decide⟩ <;>
    intro hh <;>
    simp only [get_badge, hh, if_true, Bool.false_eq_true, if_false] <;>
    split_ifs <;>
    refine ⟨?_, ?_, ?_, ?_⟩ <;>
    constructor <;>
    intro hx <;>
    first
      | rfl
      | exact absurd hx (by decide)
      | linarith
      | exact ⟨by linarith, by linarith⟩

/-- Witness for C3: at score 0.8 on the higher-is-better DEI metric the
Excellent label is equivalent to the 0.75 threshold being met. -/
theorem get_badge_threshold_table_witness :
    ((get_badge 0.8 .DEI).1 = "Excellent") ↔ (0.75 : ℚ) ≤ 0.8 :=
  ((get_badge_threshold_table .DEI 0.8).1 rfl).1

/-- C9: For every score, on every metric, `get_badge` returns exactly one
of the four labels, and the label rank is monotone in the score: for a
higher-is-better metric the rank is non-decreasing as the score
increases, and for a lower-is-better metric it is non-increasing. -/
theorem get_badge_total_monotone (key : MetricKey) (s t : ℚ) :
    ((get_badge s key).1 = "Excellent" ∨ (get_badge s key).1 = "Good" ∨
      (get_badge s key).1 = "Needs Attention" ∨ (get_badge s key).1 = "Critical") ∧
    (s ≤ t → (METRIC_INFO key).higher_is_better = true →
      badgeRank (get_badge s key).1 ≤ badgeRank (get_badge t key).1) ∧
    (s ≤ t → (METRIC_INFO key).higher_is_better = false →
      badgeRank (get_badge t key).1 ≤ badgeRank (get_badge s key).1) := by
  refine ⟨?_, ?_, ?_⟩
  · rcases Bool.eq_false_or_eq_true ((METRIC_INFO key).higher_is_better) with hh | hh <;>
      simp only [get_badge, hh, Bool.false_eq_true, if_false, if_true] <;>
      split_ifs <;> simp
  · intro hst hh
    simp only [get_badge, hh, if_true]
    split_ifs <;> first | decide | (exfalso; linarith)
  · intro hst hh
    simp only [get_badge, hh, Bool.false_eq_true, if_false]
    split_ifs <;> first | decide | (exfalso; linarith)

/-- Witness for C9: rank monotonicity applied to scores 0.2 and 0.6 on
the higher-is-better DEI metric. -/
theorem get_badge_total_monotone_witness :
    badgeRank (get_badge 0.2 .DEI).1 ≤ badgeRank (get_badge 0.6 .DEI).1 :=
  (get_badge_total_monotone .DEI 0.2 0.6).2.1 (by decide) rfl

/-- C4: `get_risk_category` follows the fixed priority order AHS below 0.5,
then UBS above 0.7, then SRS above 0.6, else Healthy, first match wins;
in particular any record with AHS equal to 0.4 and UBS equal to 0.9 is
classified Access Stress, never Update Burden. -/
theorem get_risk_category_priority_order (r : DistrictRecord) :
    (r.AHS < 0.5 → get_risk_category r = "Access Stress") ∧
    (¬ r.AHS < 0.5 → r.UBS > 0.7 → get_risk_category r = "Update Burden") ∧
    (¬ r.AHS < 0.5 → ¬ r.UBS > 0.7 → r.SRS > 0.6 →
      get_risk_category r = "Stability Risk") ∧
    (¬ r.AHS < 0.5 → ¬ r.UBS > 0.7 → ¬ r.SRS > 0.6 →
      get_risk_category r = "Healthy") ∧
    (r.AHS = 0.4 → r.UBS = 0.9 → get_risk_category r = "Access Stress") := by
  unfold get_risk_category
  refine ⟨?_, ?_, ?_, ?_, ?_⟩ <;> intros <;> split_ifs <;>
    first | rfl | (exfalso; linarith)

/-- Witness for C4 at a record failing both the AHS and the UBS
threshold: the first-match rule reports Access Stress. -/
theorem get_risk_category_priority_order_witness :
    get_risk_category ⟨"X", "Q", 0.8, 0.4, 0.9, 0.1⟩ = "Access Stress" :=
  (get_risk_category_priority_order ⟨"X", "Q", 0.8, 0.4, 0.9, 0.1⟩).2.2.2.2 rfl rfl

/-- C5: `get_issue_type` follows the fixed priority order DEI below 0.5,
then AHS below 0.5, then UBS above 0.7, then SRS above 0.6, else healthy,
first match wins; in particular any record with DEI equal to 0.4 and AHS
equal to 0.9 is tagged critical, not healthy. -/
theorem get_issue_type_priority_order (r : DistrictRecord) :
    (r.DEI < 0.5 → get_issue_type r = "critical") ∧
    (¬ r.DEI < 0.5 → r.AHS < 0.5 → get_issue_type r = "access_stress") ∧
    (¬ r.DEI < 0.5 → ¬ r.AHS < 0.5 → r.UBS > 0.7 →
      get_issue_type r = "update_burden") ∧
    (¬ r.DEI < 0.5 → ¬ r.AHS < 0.5 → ¬ r.UBS > 0.7 → r.SRS > 0.6 →
      get_issue_type r = "stability_risk") ∧
    (¬ r.DEI < 0.5 → ¬ r.AHS < 0.5 → ¬ r.UBS > 0.7 → ¬ r.SRS > 0.6 →
      get_issue_type r = "healthy") ∧
    (r.DEI = 0.4 → r.AHS = 0.9 → get_issue_type r = "critical") := by
  unfold get_issue_type
  refine ⟨?_, ?_, ?_, ?_, ?_, ?_⟩ <;> intros <;> split_ifs <;>
    first | rfl | (exfalso; linarith)

/-- Witness for C5 at a record with a critically low DEI but a healthy
AHS: the DEI pre-check wins. -/
theorem get_issue_type_priority_order_witness :
    get_issue_type ⟨"X", "Q", 0.4, 0.9, 0.1, 0.1⟩ = "critical" :=
  (get_issue_type_priority_order ⟨"X", "Q", 0.4, 0.9, 0.1, 0.1⟩).2.2.2.2.2 rfl rfl

/-- C6: `get_recommendation` evaluates the thresholds in the same fixed
priority order as `get_issue_type` (DEI, then AHS, then UBS, then SRS,
first match wins), returning level critical on the DEI branch, level
warning on each of the AHS, UBS and SRS branches, and the level-good
fallback record exactly when no threshold is crossed. -/
theorem get_recommendation_priority_order (r : DistrictRecord) :
    (r.DEI < 0.5 → (get_recommendation r).level = "critical") ∧
    (¬ r.DEI < 0.5 → r.AHS < 0.5 → (get_recommendation r).level = "warning" ∧
      (get_recommendation r).title = "High Access Stress") ∧
    (¬ r.DEI < 0.5 → ¬ r.AHS < 0.5 → r.UBS > 0.7 →
      (get_recommendation r).level = "warning" ∧
      (get_recommendation r).title = "Update Overload") ∧
    (¬ r.DEI < 0.5 → ¬ r.AHS < 0.5 → ¬ r.UBS > 0.7 → r.SRS > 0.6 →
      (get_recommendation r).level = "warning" ∧
      (get_recommendation r).title = "Stability Concerns") ∧
    ((¬ r.DEI < 0.5 ∧ ¬ r.AHS < 0.5 ∧ ¬ r.UBS > 0.7 ∧ ¬ r.SRS > 0.6) ↔
      get_recommendation r =
        ⟨"good", "District Performing Well",
          "All metrics are within acceptable ranges.",
          "Maintain current operations and continue monitoring."⟩) := by
  unfold get_recommendation
  refine ⟨?_, ?_, ?_, ?_, ?_⟩
  · intros; split_ifs; rfl
  · intros; split_ifs; exact ⟨rfl, rfl⟩
  · intros; split_ifs; exact ⟨rfl, rfl⟩
  · intros; split_ifs; exact ⟨rfl, rfl⟩
  · split_ifs with h1 h2 h3 h4
    · exact iff_of_false (fun hc => hc.1 h1) (by decide)
    · exact iff_of_false (fun hc => hc.2.1 h2) (by decide)
    · exact iff_of_false (fun hc => hc.2.2.1 h3) (by decide)
    · exact iff_of_false (fun hc => hc.2.2.2 h4) (by decide)
    · exact iff_of_true ⟨h1, h2, h3, h4⟩ rfl

/-- Witness for C6 at a record crossing no threshold: the fallback
level-good recommendation record is returned. -/
theorem get_recommendation_priority_order_witness :
    get_recommendation ⟨"X", "P", 0.9, 0.9, 0.1, 0.1⟩ =
      ⟨"good", "District Performing Well",
        "All metrics are within acceptable ranges.",
        "Maintain current operations and continue monitoring."⟩ :=
  (get_recommendation_priority_order ⟨"X", "P", 0.9, 0.9, 0.1, 0.1⟩).2.2.2.2.mp
    ⟨by decide, by decide, by decide, by decide⟩

/-- On a non-empty list, `idxmaxDEI` returns the element at the first
position attaining the maximal DEI: every element is bounded by it, and
every strictly earlier element has strictly smaller DEI. -/
theorem idxmaxDEI_spec (l : List DistrictRecord) (h : l ≠ []) :
    ∃ i, ∃ hi : i < l.length,
      idxmaxDEI l = some (l.get ⟨i, hi⟩) ∧
      (∀ j, ∀ hj : j < l.length, (l.get ⟨j, hj⟩).DEI ≤ (l.get ⟨i, hi⟩).DEI) ∧
      (∀ j, ∀ hj : j < l.length, j < i →
        (l.get ⟨j, hj⟩).DEI < (l.get ⟨i, hi⟩).DEI) := by
  induction l with
  | nil => exact absurd rfl h
  | cons r rs ih =>
    cases rs with
    | nil =>
      refine ⟨0, Nat.zero_lt_one, rfl, ?_, ?_⟩
      · intro j hj
        have hj0 : j = 0 := Nat.lt_one_iff.mp hj
        subst hj0
        exact le_refl _
      · intro j hj hj0
        exact absurd hj0 (Nat.not_lt_zero j)
    | cons s ss =>
      obtain ⟨i, hi, hEq, hMax, hFirst⟩ := ih (by simp)
      have hstep : idxmaxDEI (r :: s :: ss) =
          some (if r.DEI < ((s :: ss).get ⟨i, hi⟩).DEI
            then (s :: ss).get ⟨i, hi⟩ else r) := by
        rw [idxmaxDEI, hEq]
      by_cases hlt : r.DEI < ((s :: ss).get ⟨i, hi⟩).DEI
      · refine ⟨i + 1, Nat.succ_lt_succ hi, ?_, ?_, ?_⟩
        · rw [hstep, if_pos hlt]; rfl
        · intro j hj
          cases j with
          | zero => exact le_of_lt hlt
          | succ j => exact hMax j (Nat.lt_of_succ_lt_succ hj)
        · intro j hj hji
          cases j with
          | zero => exact hlt
          | succ j =>
            exact hFirst j (Nat.lt_of_succ_lt_succ hj) (Nat.lt_of_succ_lt_succ hji)
      · refine ⟨0, Nat.succ_pos _, ?_, ?_, ?_⟩
        · rw [hstep, if_neg hlt]; rfl
        · intro j hj
          cases j with
          | zero => exact le_refl _
          | succ j =>
            exact le_trans (hMax j (Nat.lt_of_succ_lt_succ hj)) (le_of_not_lt hlt)
        · intro j hj hj0
          exact absurd hj0 (Nat.not_lt_zero j)

/-- On a non-empty list, `idxminDEI` returns the element at the first
position attaining the minimal DEI. -/
theorem idxminDEI_spec (l : List DistrictRecord) (h : l ≠ []) :
    ∃ i, ∃ hi : i < l.length,
      idxminDEI l = some (l.get ⟨i, hi⟩) ∧
      (∀ j, ∀ hj : j < l.length, (l.get ⟨i, hi⟩).DEI ≤ (l.get ⟨j, hj⟩).DEI) ∧
      (∀ j, ∀ hj : j < l.length, j < i →
        (l.get ⟨i, hi⟩).DEI < (l.get ⟨j, hj⟩).DEI) := by
  induction l with
  | nil => exact absurd rfl h
  | cons r rs ih =>
    cases rs with
    | nil =>
      refine ⟨0, Nat.zero_lt_one, rfl, ?_, ?_⟩
      · intro j hj
        have hj0 : j = 0 := Nat.lt_one_iff.mp hj
        subst hj0
        exact le_refl _
      · intro j hj hj0
        exact absurd hj0 (Nat.not_lt_zero j)
    | cons s ss =>
      obtain ⟨i, hi, hEq, hMin, hFirst⟩ := ih (by simp)
      have hstep : idxminDEI (r :: s :: ss) =
          some (if ((s :: ss).get ⟨i, hi⟩).DEI < r.DEI
            then (s :: ss).get ⟨i, hi⟩ else r) := by
        rw [idxminDEI, hEq]
      by_cases hlt : ((s :: ss).get ⟨i, hi⟩).DEI < r.DEI
      · refine ⟨i + 1, Nat.succ_lt_succ hi, ?_, ?_, ?_⟩
        · rw [hstep, if_pos hlt]; rfl
        · intro j hj
          cases j with
          | zero => exact le_of_lt hlt
          | succ j => exact hMin j (Nat.lt_of_succ_lt_succ hj)
        · intro j hj hji
          cases j with
          | zero => exact hlt
          | succ j =>
            exact hFirst j (Nat.lt_of_succ_lt_succ hj) (Nat.lt_of_succ_lt_succ hji)
      · refine ⟨0, Nat.succ_pos _, ?_, ?_, ?_⟩
        · rw [hstep, if_neg hlt]; rfl
        · intro j hj
          cases j with
          | zero => exact le_refl _
          | succ j =>
            exact le_trans (le_of_not_lt hlt) (hMin j (Nat.lt_of_succ_lt_succ hj))
        · intro j hj hj0
          exact absurd hj0 (Nat.not_lt_zero j)

/-- C7: Over a non-empty group the best performer is the record with
maximal DEI and the worst the record with minimal DEI, ties broken by
the first-encountered record in input order; in particular over the two
districts A and B that both score DEI 0.9, district A is selected as
best. -/
theorem rank_extremes_by_dei (l : List DistrictRecord) (h : l ≠ []) :
    (∃ i, ∃ hi : i < l.length,
      idxmaxDEI l = some (l.get ⟨i, hi⟩) ∧
      (∀ j, ∀ hj : j < l.length, (l.get ⟨j, hj⟩).DEI ≤ (l.get ⟨i, hi⟩).DEI) ∧
      (∀ j, ∀ hj : j < l.length, j < i →
        (l.get ⟨j, hj⟩).DEI < (l.get ⟨i, hi⟩).DEI)) ∧
    (∃ i, ∃ hi : i < l.length,
      idxminDEI l = some (l.get ⟨i, hi⟩) ∧
      (∀ j, ∀ hj : j < l.length, (l.get ⟨i, hi⟩).DEI ≤ (l.get ⟨j, hj⟩).DEI) ∧
      (∀ j, ∀ hj : j < l.length, j < i →
        (l.get ⟨i, hi⟩).DEI < (l.get ⟨j, hj⟩).DEI)) ∧
    idxmaxDEI [⟨"S", "A", 0.9, 0.5, 0.5, 0.5⟩, ⟨"S", "B", 0.9, 0.5, 0.5, 0.5⟩] =
      some ⟨"S", "A", 0.9, 0.5, 0.5, 0.5⟩ :=
  ⟨idxmaxDEI_spec l h, idxminDEI_spec l h, by decide⟩

/-- Witness for C7 on the singleton group: its only record is selected
as the maximum. -/
theorem rank_extremes_by_dei_witness :
    ∃ i, ∃ hi : i < ([⟨"S", "A", 0.9, 0.5, 0.5, 0.5⟩] : List DistrictRecord).length,
      idxmaxDEI [⟨"S", "A", 0.9, 0.5, 0.5, 0.5⟩] =
        some (([⟨"S", "A", 0.9, 0.5, 0.5, 0.5⟩] : List DistrictRecord).get ⟨i, hi⟩) ∧
      (∀ j, ∀ hj : j < ([⟨"S", "A", 0.9, 0.5, 0.5, 0.5⟩] : List DistrictRecord).length,
        (([⟨"S", "A", 0.9, 0.5, 0.5, 0.5⟩] : List DistrictRecord).get ⟨j, hj⟩).DEI ≤
          (([⟨"S", "A", 0.9, 0.5, 0.5, 0.5⟩] : List DistrictRecord).get ⟨i, hi⟩).DEI) ∧
      (∀ j, ∀ hj : j < ([⟨"S", "A", 0.9, 0.5, 0.5, 0.5⟩] : List DistrictRecord).length,
        j < i →
        (([⟨"S", "A", 0.9, 0.5, 0.5, 0.5⟩] : List DistrictRecord).get ⟨j, hj⟩).DEI <
          (([⟨"S", "A", 0.9, 0.5, 0.5, 0.5⟩] : List DistrictRecord).get ⟨i, hi⟩).DEI) :=
  (rank_extremes_by_dei [⟨"S", "A", 0.9, 0.5, 0.5, 0.5⟩] (List.cons_ne_nil _ _)).1

/-- C8: On a non-empty group, `get_state_suggestions` produces its lines
in the fixed order: the counts of districts failing each of the four
thresholds (DEI below 0.5, AHS below 0.5, UBS above 0.7, SRS above 0.6,
each count line present exactly when its count is positive), then
exactly one overall-performance statement chosen from the mean DEI
(excellent when at least 0.7, moderate when at least 0.5, otherwise
below par), then the best district by DEI, then the worst district by
DEI. -/
theorem state_insights_fixed_order (l : List DistrictRecord) (h : l ≠ []) :
    ∃ (m : ℚ) (best worst : DistrictRecord) (perf : Suggestion),
      seriesMean (l.map (·.DEI)) = some m ∧
      idxmaxDEI l = some best ∧
      idxminDEI l = some worst ∧
      (0.7 ≤ m → perf = .excellent) ∧
      (0.5 ≤ m → m < 0.7 → perf = .moderate) ∧
      (m < 0.5 → perf = .belowPar) ∧
      get_state_suggestions l = .ok (
        (if 0 < l.countP (fun r => decide (r.DEI < 0.5))
          then [Suggestion.lowDei (l.countP (fun r => decide (r.DEI < 0.5)))]
          else []) ++
        (if 0 < l.countP (fun r => decide (r.AHS < 0.5))
          then [Suggestion.accessStress (l.countP (fun r => decide (r.AHS < 0.5)))]
          else []) ++
        (if 0 < l.countP (fun r => decide (r.UBS > 0.7))
          then [Suggestion.updateBurden (l.countP (fun r => decide (r.UBS > 0.7)))]
          else []) ++
        (if 0 < l.countP (fun r => decide (r.SRS > 0.6))
          then [Suggestion.stabilityRisk (l.countP (fun r => decide (r.SRS > 0.6)))]
          else []) ++
        [perf] ++
        [Suggestion.bestPerformer best.district best.DEI,
         Suggestion.needsMostAttention worst.district worst.DEI]) := by
  have hmap : l.map (·.DEI) ≠ [] := fun hc => h (List.map_eq_nil_iff.mp hc)
  obtain ⟨i, hi, hb, -, -⟩ := idxmaxDEI_spec l h
  obtain ⟨i2, hi2, hw, -, -⟩ := idxminDEI_spec l h
  set m : ℚ := (l.map (·.DEI)).sum / ((l.map (·.DEI)).length : ℚ) with hm
  have hmean : seriesMean (l.map (·.DEI)) = some m := by
    simp [seriesMean, hmap, hm]
  refine ⟨m, l.get ⟨i, hi⟩, l.get ⟨i2, hi2⟩,
    if nanGe (some m) 0.7 then .excellent
      else if nanGe (some m) 0.5 then .moderate else .belowPar,
    hmean, hb, hw, ?_, ?_, ?_, ?_⟩
  · intro hm7
    rw [if_pos]
    simpa [nanGe, ge_iff_le] using hm7
  · intro hm5 hm7
    rw [if_neg, if_pos]
    · simpa [nanGe, ge_iff_le] using hm5
    · simp only [nanGe, decide_eq_true_eq, ge_iff_le]
      linarith
  · intro hm5
    rw [if_neg, if_neg] <;> simp only [nanGe, decide_eq_true_eq, ge_iff_le] <;> linarith
  · simp only [get_state_suggestions, hmean, hb, hw,
      List.countP_eq_length_filter, gt_iff_lt]

/-- Witness for C8 on a concrete singleton group of one healthy
district. -/
theorem state_insights_fixed_order_witness :
    ∃ (m : ℚ) (best worst : DistrictRecord) (perf : Suggestion),
      seriesMean (([⟨"X", "P", 0.8, 0.8, 0.1, 0.1⟩] : List DistrictRecord).map (·.DEI)) = some m ∧
      idxmaxDEI [⟨"X", "P", 0.8, 0.8, 0.1, 0.1⟩] = some best ∧
      idxminDEI [⟨"X", "P", 0.8, 0.8, 0.1, 0.1⟩] = some worst ∧
      (0.7 ≤ m → perf = .excellent) ∧
      (0.5 ≤ m → m < 0.7 → perf = .moderate) ∧
      (m < 0.5 → perf = .belowPar) ∧
      get_state_suggestions [⟨"X", "P", 0.8, 0.8, 0.1, 0.1⟩] = .ok (
        (if 0 < ([⟨"X", "P", 0.8, 0.8, 0.1, 0.1⟩] : List DistrictRecord).countP
            (fun r => decide (r.DEI < 0.5))
          then [Suggestion.lowDei (([⟨"X", "P", 0.8, 0.8, 0.1, 0.1⟩] : List DistrictRecord).countP
            (fun r => decide (r.DEI < 0.5)))]
          else []) ++
        (if 0 < ([⟨"X", "P", 0.8, 0.8, 0.1, 0.1⟩] : List DistrictRecord).countP
            (fun r => decide (r.AHS < 0.5))
          then [Suggestion.accessStress (([⟨"X", "P", 0.8, 0.8, 0.1, 0.1⟩] : List DistrictRecord).countP
            (fun r => decide (r.AHS < 0.5)))]
          else []) ++
        (if 0 < ([⟨"X", "P", 0.8, 0.8, 0.1, 0.1⟩] : List DistrictRecord).countP
            (fun r => decide (r.UBS > 0.7))
          then [Suggestion.updateBurden (([⟨"X", "P", 0.8, 0.8, 0.1, 0.1⟩] : List DistrictRecord).countP
            (fun r => decide (r.UBS > 0.7)))]
          else []) ++
        (if 0 < ([⟨"X", "P", 0.8, 0.8, 0.1, 0.1⟩] : List DistrictRecord).countP
            (fun r => decide (r.SRS > 0.6))
          then [Suggestion.stabilityRisk (([⟨"X", "P", 0.8, 0.8, 0.1, 0.1⟩] : List DistrictRecord).countP
            (fun r => decide (r.SRS > 0.6)))]
          else []) ++
        [perf] ++
        [Suggestion.bestPerformer best.district best.DEI,
         Suggestion.needsMostAttention worst.district worst.DEI]) :=
  state_insights_fixed_order [⟨"X", "P", 0.8, 0.8, 0.1, 0.1⟩] (List.cons_ne_nil _ _)

/-- C10: For records with DEI at least 0.5 the two rule tables agree
under the evident tag renaming: `get_issue_type` returns access_stress,
update_burden, stability_risk or healthy exactly when
`get_risk_category` returns Access Stress, Update Burden, Stability Risk
or Healthy respectively — the tables differ only in the DEI pre-check. -/
theorem issue_type_matches_risk_category (r : DistrictRecord)
    (h : 0.5 ≤ r.DEI) :
    (get_issue_type r = "access_stress" ↔ get_risk_category r = "Access Stress") ∧
    (get_issue_type r = "update_burden" ↔ get_risk_category r = "Update Burden") ∧
    (get_issue_type r = "stability_risk" ↔ get_risk_category r = "Stability Risk") ∧
    (get_issue_type r = "healthy" ↔ get_risk_category r = "Healthy") := by
  unfold get_issue_type get_risk_category
  rw [if_neg (not_lt.mpr h)]
  split_ifs <;> refine ⟨?_, ?_, ?_, ?_⟩ <;> decide

/-- Witness for C10 at a record with healthy DEI under access stress:
both tables select the access-stress tag. -/
theorem issue_type_matches_risk_category_witness :
    get_issue_type ⟨"X", "P", 0.8, 0.4, 0.9, 0.1⟩ = "access_stress" ↔
      get_risk_category ⟨"X", "P", 0.8, 0.4, 0.9, 0.1⟩ = "Access Stress" :=
  (issue_type_matches_risk_category ⟨"X", "P", 0.8, 0.4, 0.9, 0.1⟩ (by decide)).1

end UidaiDashboard
